import Mathlib

/-
Verification of the RustJourney repository's specification.

The repository holds four tutorial programs; the spec centres on the
`a07_simple_crud_app` Rocket CRUD service (src/main.rs, with its `hero`
and `db` modules declared but absent from the sources), plus the
`a01_hyper_microservice` hello-world service and the
`a04_postgres_example` demo. The handlers, routing and literal strings
below are shallow embeddings of the source; the Entity Store and the
Connection Pool, whose Rust modules are not among the sources, are
modelled from the specification and marked as such.
-/

namespace CrudApp

/-- The entity of the CRUD service (`Hero` in src/hero.rs, with id and
its serde-serialized fields; the other attributes are opaque and are
represented by the `name` field). -/
structure Hero where
  id : Option Int
  name : String
  deriving DecidableEq, Repr

/-- A minimal JSON value model, for the response bodies built with
`Json(...)` and the `json!` macro in the handlers. -/
inductive Json where
  | null : Json
  | bool : Bool → Json
  | num : Int → Json
  | str : String → Json
  | arr : List Json → Json
  | obj : List (String × Json) → Json
  deriving Repr

/-- Serde serialization of a `Hero` to JSON. -/
def heroJson (h : Hero) : Json :=
  Json.obj [("id", match h.id with
                   | none => Json.null
                   | some n => Json.num n),
            ("name", Json.str h.name)]

/-- Modelled from the spec: the backing table of the Entity Store
(src/hero.rs and src/db.rs are missing from the sources), one table of
records keyed by integer id, with the next id the store will assign. -/
structure Store where
  table : List Hero
  nextId : Int
  deriving DecidableEq, Repr

/-- Modelled from the spec: `Hero::create` (src/hero.rs is missing) —
inserts a new record, ignoring any caller-supplied id, and returns the
entity annotated with the store-assigned id. -/
def Hero.create (e : Hero) (s : Store) : Hero × Store :=
  let h : Hero := { e with id := some s.nextId }
  (h, { table := s.table ++ [h], nextId := s.nextId + 1 })

/-- Modelled from the spec: `Hero::read` (src/hero.rs is missing) —
reads all records. -/
def Hero.read (s : Store) : List Hero :=
  s.table

/-- Modelled from the spec: `Hero::update` (src/hero.rs is missing) —
overwrites the record at `id` with the given fields; returns `false`
(not a fault) if no record with that id exists. -/
def Hero.update (id : Int) (e : Hero) (s : Store) : Bool × Store :=
  if s.table.any (fun h => h.id == some id) then
    (true, { s with table := s.table.map (fun h => if h.id == some id then e else h) })
  else
    (false, s)

/-- Modelled from the spec: `Hero::delete` (src/hero.rs is missing) —
removes the record at `id`; same false/true convention as update. -/
def Hero.delete (id : Int) (s : Store) : Bool × Store :=
  (s.table.any (fun h => h.id == some id),
   { s with table := s.table.filter (fun h => h.id != some id) })

/-- The POST handler (`create` in src/main.rs): erases the body's id
(`Hero { id: None, ..hero.into_inner() }`), inserts, and returns the
created hero as JSON. -/
def create (hero : Hero) (s : Store) : Json × Store :=
  let insert : Hero := { hero with id := none }
  let r := Hero.create insert s
  (heroJson r.1, r.2)

/-- The GET handler (`read` in src/main.rs): all records as a JSON array. -/
def read (s : Store) : Json :=
  Json.arr ((Hero.read s).map heroJson)

/-- The PUT handler (`update` in src/main.rs): overwrites the body's id
with the path id (`Hero { id: Some(id), ..hero.into_inner() }`) and wraps
the store's boolean in a success envelope. -/
def update (id : Int) (hero : Hero) (s : Store) : Json × Store :=
  let upd : Hero := { hero with id := some id }
  let r := Hero.update id upd s
  (Json.obj [("success", Json.bool r.1)], r.2)

/-- The DELETE handler (`delete` in src/main.rs): wraps the store's
boolean in a success envelope. -/
def delete (id : Int) (s : Store) : Json × Store :=
  let r := Hero.delete id s
  (Json.obj [("success", Json.bool r.1)], r.2)

/-- The HTTP methods used by the service. -/
inductive Method where
  | GET : Method
  | POST : Method
  | PUT : Method
  | DELETE : Method
  deriving DecidableEq, Repr

/-- A matched route: which handler a request is dispatched to, with its
parsed path parameters. -/
inductive RouteTarget where
  | hello (name : String) (age : Nat) : RouteTarget
  | create : RouteTarget
  | read : RouteTarget
  | update (id : Int) : RouteTarget
  | delete (id : Int) : RouteTarget
  deriving DecidableEq, Repr

/-- Decimal digit parsing as in Rust's integer `from_str`: at least one
character, all decimal digits. -/
def parseDigits (cs : List Char) : Option Nat :=
  if cs ≠ [] ∧ cs.all (fun c => c.isDigit) then
    some (cs.foldl (fun n c => n * 10 + (c.toNat - Char.toNat '0')) 0)
  else none

/-- Rocket's `FromParam` for `i32`, i.e. Rust's `i32::from_str`: an
optional sign, decimal digits, and an in-range check. -/
def parseI32 (s : String) : Option Int :=
  let signed : Option Int :=
    match s.data with
    | '-' :: rest => (parseDigits rest).map (fun n => -(n : Int))
    | '+' :: rest => (parseDigits rest).map (fun n => (n : Int))
    | cs => (parseDigits cs).map (fun n => (n : Int))
  match signed with
  | some n => if -(2 ^ 31) ≤ n ∧ n < 2 ^ 31 then some n else none
  | none => none

/-- Rocket's `FromParam` for `u8`, i.e. Rust's `u8::from_str`. -/
def parseU8 (s : String) : Option Nat :=
  let parsed : Option Nat :=
    match s.data with
    | '+' :: rest => parseDigits rest
    | cs => parseDigits cs
  match parsed with
  | some n => if n < 2 ^ 8 then some n else none
  | none => none

/-- The routing table built by `main` in src/main.rs:
`mount("/hello", routes![hello])`, `mount("/hero", routes![create,
update, delete])`, `mount("/heroes", routes![read])`, with each
handler's verb and path attribute. The path is split into segments. -/
def route : Method → List String → Option RouteTarget
  | Method.GET, ["hello", name, age] =>
    match parseU8 age with
    | some a => some (RouteTarget.hello name a)
    | none => none
  | Method.POST, ["hero"] => some RouteTarget.create
  | Method.PUT, ["hero", s] =>
    match parseI32 s with
    | some id => some (RouteTarget.update id)
    | none => none
  | Method.DELETE, ["hero", s] =>
    match parseI32 s with
    | some id => some (RouteTarget.delete id)
    | none => none
  | Method.GET, ["heroes"] => some RouteTarget.read
  | _, _ => none

/-- The four Entity Store operations. -/
inductive StoreOp where
  | createOp : StoreOp
  | listOp : StoreOp
  | updateOp : StoreOp
  | deleteOp : StoreOp
  deriving DecidableEq, Repr

/-- The Entity Store operations each handler body invokes, in order,
read off the handler bodies in src/main.rs (`hello` calls none;
each CRUD handler calls its `Hero::` operation once). -/
def storeOps : RouteTarget → List StoreOp
  | RouteTarget.hello _ _ => []
  | RouteTarget.create => [StoreOp.createOp]
  | RouteTarget.read => [StoreOp.listOp]
  | RouteTarget.update _ => [StoreOp.updateOp]
  | RouteTarget.delete _ => [StoreOp.deleteOp]

/-- Modelled from the spec: the Connection Pool (src/db.rs, which wraps
the r2d2 pool, is missing from the sources). Connections are opaque
handles; the pool keeps the free ones and the borrowed ones. -/
structure Pool where
  free : List Nat
  borrowed : List Nat
  deriving DecidableEq, Repr

/-- Modelled from the spec: a pool initialized with N connections, all free. -/
def Pool.init (n : Nat) : Pool :=
  { free := List.range n, borrowed := [] }

/-- Modelled from the spec: `acquire` returns one free connection,
marking it borrowed, or fails when none is free. -/
def Pool.acquire (p : Pool) : Option (Nat × Pool) :=
  match p.free with
  | [] => none
  | c :: rest => some (c, { free := rest, borrowed := c :: p.borrowed })

/-- Modelled from the spec: `release` returns a borrowed connection to
the free set. -/
def Pool.release (c : Nat) (p : Pool) : Pool :=
  { free := c :: p.free, borrowed := p.borrowed.erase c }

/-- One scoped borrow as Rocket's request guard performs it around a
handler: a successful `acquire` paired with exactly one `release` of the
same handle when the borrowing scope exits. -/
def Pool.cycle (p : Pool) : Pool :=
  match p.acquire with
  | some r => Pool.release r.1 r.2
  | none => p

end CrudApp

namespace HyperMicroservice

/-- An incoming HTTP request, with the parts a hyper service closure
could inspect. -/
structure Request where
  method : String
  path : String
  headers : List (String × String)
  body : String
  deriving DecidableEq, Repr

/-- A hyper response: status and body. -/
structure Response where
  status : Nat
  body : String
  deriving DecidableEq, Repr

/-- The service closure of a01_hyper_microservice/src/main.rs:
`service_fn_ok(|_| Response::new(Body::from("Rust Microservice")))`. -/
def microservice (_req : Request) : Response :=
  { status := 200, body := "Rust Microservice" }

end HyperMicroservice

namespace PostgresExample

/-- The five physical lines of the SQL string literal passed to
`conn.query` in `print_db` (a04_postgres_example/src/main.rs), each
continued with a backslash at end of line; the continuation lines carry
eight spaces of indentation in the source. -/
def sqlSelectLines : List String :=
  ["SELECT p.name, s.unit, s.quantity, s.sale_date",
   "        FROM Sales s",
   "        LEFT JOIN Products p",
   "        ON p.id = s.product_id",
   "        ORDER BY s.sale_date"]

/-- Rust's backslash-newline escape in a string literal: the newline and
all leading whitespace of the continuation line are removed. -/
def stripLeadingWs (s : String) : String :=
  String.mk (s.data.dropWhile (fun c => c == ' ' || c == '\t'))

/-- Join source lines under Rust's line-continuation semantics: the
first line verbatim, every continuation line with its leading
whitespace stripped, and no newlines. -/
def joinContinued : List String → String
  | [] => ""
  | l :: ls => l ++ String.join (ls.map stripLeadingWs)

/-- The string value `print_db` actually passes to `conn.query`. -/
def printDbQuery : String :=
  joinContinued sqlSelectLines

end PostgresExample

namespace CrudApp

theorem any_id_eq_false {id : Int} {l : List Hero}
    (h : ∀ x ∈ l, x.id ≠ some id) :
    l.any (fun x => x.id == some id) = false := by
  rw [List.any_eq_false]
  intro x hx
  simpa using h x hx

theorem Hero.update_absent (id : Int) (e : Hero) (s : Store)
    (h : ∀ x ∈ s.table, x.id ≠ some id) :
    Hero.update id e s = (false, s) := by
  rw [Hero.update]
  simp [any_id_eq_false h]

theorem Pool.cycle_free_length (p : Pool) :
    (Pool.cycle p).free.length = p.free.length := by
  obtain ⟨free, borrowed⟩ := p
  cases free with
  | nil => rfl
  | cons c rest => rfl

/-- Claim C1: the create handler discards any caller-supplied id — its
result does not depend on the request body's id field, the entity handed
to the store has its id erased to `none`, and the response body is the
created entity annotated with the store-assigned id. -/
theorem create_discards_caller_id (hero : Hero) (oid : Option Int) (s : Store) :
    create hero s = create { hero with id := oid } s ∧
    create hero s = (heroJson (Hero.create { hero with id := none } s).1,
                     (Hero.create { hero with id := none } s).2) ∧
    (create hero s).1 = heroJson { hero with id := some s.nextId } :=
  ⟨rfl, rfl, rfl⟩

/-- Claim C2: the update and delete handlers answer with exactly a
success envelope carrying the store operation's boolean; when the id is
absent the response is the normal envelope with success `false`, not an
error. -/
theorem update_delete_success_envelope (id : Int) (hero : Hero) (s : Store) :
    (update id hero s).1
      = Json.obj [("success", Json.bool (Hero.update id { hero with id := some id } s).1)] ∧
    (delete id s).1 = Json.obj [("success", Json.bool (Hero.delete id s).1)] ∧
    ((∀ x ∈ s.table, x.id ≠ some id) →
      (update id hero s).1 = Json.obj [("success", Json.bool false)] ∧
      (delete id s).1 = Json.obj [("success", Json.bool false)]) := by
  refine ⟨rfl, rfl, fun habs => ⟨?_, ?_⟩⟩
  · have h1 := Hero.update_absent id { hero with id := some id } s habs
    simp [update, h1]
  · have h2 := any_id_eq_false habs
    simp [delete, Hero.delete, h2]

theorem update_delete_success_envelope_witness :
    (update 1 ⟨none, "A"⟩ ⟨[⟨some 2, "B"⟩], 3⟩).1 = Json.obj [("success", Json.bool false)] ∧
    (delete 1 ⟨[⟨some 2, "B"⟩], 3⟩).1 = Json.obj [("success", Json.bool false)] :=
  (update_delete_success_envelope 1 ⟨none, "A"⟩ ⟨[⟨some 2, "B"⟩], 3⟩).2.2 (by decide)

/-- Claim C3: GET /heroes routes to the list handler, POST /hero to
create, PUT /hero/{id} to update and DELETE /hero/{id} to delete, for
any path segment parsing as an i32 id, and each of the four CRUD
handlers invokes exactly one Entity Store operation — the matching one. -/
theorem routing_table (id : Int) (seg : String) :
    route Method.GET ["heroes"] = some RouteTarget.read ∧
    route Method.POST ["hero"] = some RouteTarget.create ∧
    (parseI32 seg = some id →
      route Method.PUT ["hero", seg] = some (RouteTarget.update id) ∧
      route Method.DELETE ["hero", seg] = some (RouteTarget.delete id)) ∧
    storeOps RouteTarget.read = [StoreOp.listOp] ∧
    storeOps RouteTarget.create = [StoreOp.createOp] ∧
    storeOps (RouteTarget.update id) = [StoreOp.updateOp] ∧
    storeOps (RouteTarget.delete id) = [StoreOp.deleteOp] := by
  refine ⟨rfl, rfl, fun hp => ⟨?_, ?_⟩, rfl, rfl, rfl, rfl⟩ <;> simp [route, hp]

theorem routing_table_witness :
    route Method.PUT ["hero", "1"] = some (RouteTarget.update 1) ∧
    route Method.DELETE ["hero", "1"] = some (RouteTarget.delete 1) :=
  (routing_table 1 "1").2.2.1 (by decide)

/-- Claim C4: updating an id not present in the store returns `false`
and leaves the stored table unchanged — no record is created as a side
effect. -/
theorem update_missing_id (id : Int) (e : Hero) (s : Store)
    (h : ∀ x ∈ s.table, x.id ≠ some id) :
    Hero.update id e s = (false, s) :=
  Hero.update_absent id e s h

theorem update_missing_id_witness :
    Hero.update 1 ⟨some 1, "X"⟩ ⟨[⟨some 2, "A"⟩], 3⟩ = (false, ⟨[⟨some 2, "A"⟩], 3⟩) :=
  update_missing_id 1 ⟨some 1, "X"⟩ ⟨[⟨some 2, "A"⟩], 3⟩ (by decide)

/-- Claim C5: for an id present in the store, delete followed by delete
of the same id returns `true` then `false`. -/
theorem delete_twice (id : Int) (s : Store)
    (h : ∃ x ∈ s.table, x.id = some id) :
    (Hero.delete id s).1 = true ∧ (Hero.delete id (Hero.delete id s).2).1 = false := by
  constructor
  · show s.table.any (fun x => x.id == some id) = true
    rw [List.any_eq_true]
    obtain ⟨x, hx, hid⟩ := h
    exact ⟨x, hx, by simp [hid]⟩
  · show ((s.table.filter (fun x => x.id != some id)).any (fun x => x.id == some id)) = false
    rw [List.any_eq_false]
    intro x hx
    simpa using (List.mem_filter.mp hx).2

theorem delete_twice_witness :
    (Hero.delete 1 ⟨[⟨some 1, "A"⟩], 2⟩).1 = true ∧
    (Hero.delete 1 (Hero.delete 1 ⟨[⟨some 1, "A"⟩], 2⟩).2).1 = false :=
  delete_twice 1 ⟨[⟨some 1, "A"⟩], 2⟩ (by decide)

/-- Claim C6: a successful acquire paired with one release of the same
handle restores the number of free connections, and after N paired
acquire/release cycles on a pool of size N exactly N connections remain
free — no connection is leaked. -/
theorem pool_no_leak (n : Nat) :
    (∀ p c p', Pool.acquire p = some (c, p') →
      (Pool.release c p').free.length = p.free.length) ∧
    ((Pool.cycle)^[n] (Pool.init n)).free.length = n := by
  constructor
  · intro p c p' hacq
    obtain ⟨free, borrowed⟩ := p
    cases free with
    | nil => exact absurd hacq (by simp [Pool.acquire])
    | cons a rest =>
      simp only [Pool.acquire, Option.some.injEq, Prod.mk.injEq] at hacq
      obtain ⟨rfl, rfl⟩ := hacq
      rfl
  · have hlen : ∀ k p, ((Pool.cycle)^[k] p).free.length = p.free.length := by
      intro k
      induction k with
      | zero => intro p; rfl
      | succ k ih =>
        intro p
        rw [Function.iterate_succ_apply, ih (Pool.cycle p), Pool.cycle_free_length]
    rw [hlen n (Pool.init n)]
    simp [Pool.init]

theorem pool_no_leak_witness :
    (Pool.release 0 ⟨[1], [0]⟩).free.length = (Pool.init 2).free.length ∧
    ((Pool.cycle)^[2] (Pool.init 2)).free.length = 2 :=
  ⟨(pool_no_leak 2).1 (Pool.init 2) 0 ⟨[1], [0]⟩ rfl, (pool_no_leak 2).2⟩

/-- Claim C8: the update handler overwrites the request body's id with
the path id — the body's id field never influences the result — and
every record of the resulting table is either an untouched original or
the given entity stored under the path id. -/
theorem update_overwrites_body_id (id : Int) (hero : Hero) (oid : Option Int) (s : Store) :
    update id hero s = update id { hero with id := oid } s ∧
    (∀ x ∈ (update id hero s).2.table, x ∈ s.table ∨ x = { hero with id := some id }) := by
  refine ⟨rfl, fun x hx => ?_⟩
  by_cases hc : s.table.any (fun h => h.id == some id) = true
  · have htab : (update id hero s).2.table
        = s.table.map (fun h => if h.id == some id then { hero with id := some id } else h) := by
      simp [update, Hero.update, hc]
    rw [htab] at hx
    obtain ⟨y, hy, hxy⟩ := List.mem_map.mp hx
    by_cases hyid : (y.id == some id) = true
    · right
      rw [← hxy]
      simp [hyid]
    · left
      rw [← hxy]
      simp only [hyid, if_false, Bool.false_eq_true]
      simpa [hyid] using hy
  · have htab : (update id hero s).2.table = s.table := by
      simp [update, Hero.update, hc]
    rw [htab] at hx
    exact Or.inl hx

theorem update_overwrites_body_id_witness :
    update 1 ⟨some 99, "B"⟩ ⟨[⟨some 1, "A"⟩], 2⟩ = update 1 ⟨none, "B"⟩ ⟨[⟨some 1, "A"⟩], 2⟩ ∧
    ((⟨some 1, "B"⟩ : Hero) ∈ ([⟨some 1, "A"⟩] : List Hero) ∨
      (⟨some 1, "B"⟩ : Hero) = ⟨some 1, "B"⟩) :=
  ⟨(update_overwrites_body_id 1 ⟨some 99, "B"⟩ none ⟨[⟨some 1, "A"⟩], 2⟩).1,
   (update_overwrites_body_id 1 ⟨some 99, "B"⟩ none ⟨[⟨some 1, "A"⟩], 2⟩).2
     ⟨some 1, "B"⟩ (by decide)⟩

end CrudApp

namespace HyperMicroservice

/-- Claim C9: the hyper service answers every request with the body
"Rust Microservice"; the response is a constant, independent of the
request's method, path, headers and body, so any two requests get
identical responses. -/
theorem microservice_constant (r r1 r2 : Request) :
    (microservice r).body = "Rust Microservice" ∧ microservice r1 = microservice r2 :=
  ⟨rfl, rfl⟩

end HyperMicroservice

namespace PostgresExample

/-- Claim C10: the query string built in print_db has no whitespace
between clauses — each backslash-newline escape removes the newline and
the next line's leading whitespace — and it contains the junction
substring "s.sale_dateFROM Sales sLEFT JOIN Products pON p.id =
s.product_idORDER BY s.sale_date", here exhibited as the literal tail of
the string. -/
theorem printDbQuery_junctions :
    printDbQuery =
      "SELECT p.name, s.unit, s.quantity, " ++
        "s.sale_dateFROM Sales sLEFT JOIN Products pON p.id = s.product_idORDER BY s.sale_date" := by
  decide

end PostgresExample
